import Mathlib

/-!
Shallow embedding of the qbittorrent-rs client library
(src/common.rs, src/torrent.rs, src/client.rs, src/error.rs) and proofs
about its encoding, builder, session and error-handling behavior.

Conventions of the embedding:
* Rust `Option<T>` becomes `Option T`; `Vec<T>` becomes `List T`;
  `String`/`&str` become `String`; `i32`/`i64` become `Int`; `u64` becomes
  `Nat`; `bool` becomes `Bool`.
* `f32` fields are never computed with by this library; they are carried
  by the opaque wrapper `F32` (for decoded torrent metadata) or, where a
  value is only ever rendered to text (`ratio_limit` in `TorrentUpload`),
  by the already-rendered decimal string.
* Rust `x.to_string()` on `bool` is `boolStr`; on integers it is `toString`.
* Rust `str::split` on a char and `str::starts_with` are modelled by
  `rustSplit` and `rustStartsWith` over the underlying character lists,
  matching the Rust semantics (splitting an empty string yields one empty
  segment; every separator occurrence starts a new segment).
* Methods taking `&mut self` and returning `&mut Self` become functions
  from the receiver to the updated receiver; methods taking `&self` cannot
  change the receiver, so they return only their result.
* A Rust `panic!` (or `.unwrap()` on `None`) is a distinguished outcome
  (`none` for `TorrentUpload.to_multipart_form`, `panicked` for client
  operations), never silently absorbed.
* The HTTP transport and serde are external collaborators: an operation
  receives the response it would observe (`HttpResponse`) and, where it
  deserializes JSON, the `from_str` decoding function, and returns the
  request it sent (`none` when no network call is performed) together with
  its result. `error_for_status` models `reqwest::Response::error_for_status`,
  which fails exactly on 4xx/5xx statuses.
-/

/-- Rendering of a Rust `bool` by `ToString`, used wherever the source calls
`to_string()` on a boolean. -/
def boolStr (b : Bool) : String :=
  if b then "true" else "false"

/-- Model of Rust `str::split(sep)` on the character list of a string:
every occurrence of the separator ends the current segment, and the empty
string yields one empty segment. -/
def splitChar (sep : Char) : List Char → List (List Char)
  | [] => [[]]
  | c :: cs =>
    let r := splitChar sep cs
    if c = sep then [] :: r
    else
      match r with
      | h :: t => (c :: h) :: t
      | [] => [[c]]

/-- Model of Rust `str::split(sep).collect::<Vec<_>>()` for a char separator. -/
def rustSplit (sep : Char) (s : String) : List String :=
  (splitChar sep s.data).map (fun cs => String.mk cs)

/-- Check that the first list is an initial segment of the second. -/
def beginsWith : List Char → List Char → Bool
  | [], _ => true
  | _ :: _, [] => false
  | a :: as, b :: bs => a = b && beginsWith as bs

/-- Model of Rust `s.starts_with(pat)`. -/
def rustStartsWith (s pat : String) : Bool :=
  beginsWith pat.data s.data

/-! ## src/common.rs -/

/-- The torrent list filter enumeration (src/common.rs `TorrentListFilter`). -/
inductive TorrentListFilter
  | All
  | Downloading
  | Seeding
  | Completed
  | Paused
  | Active
  | Inactive
  | Resumed
  | Stalled
  | StalledUploading
  | StalledDownloading
  | Errored
deriving DecidableEq

/-- Wire rendering of a filter (src/common.rs `TorrentListFilter::to_string`). -/
def TorrentListFilter.to_string : TorrentListFilter → String
  | .All => "all"
  | .Downloading => "downloading"
  | .Seeding => "seeding"
  | .Completed => "completed"
  | .Paused => "paused"
  | .Active => "active"
  | .Inactive => "inactive"
  | .Resumed => "resumed"
  | .Stalled => "stalled"
  | .StalledUploading => "stalled_uploading"
  | .StalledDownloading => "stalled_downloading"
  | .Errored => "errored"

/-- Query parameters for the torrent list endpoint
(src/common.rs `GetTorrentListParams`); the field defaults mirror the Rust
`Default` derive. -/
structure GetTorrentListParams where
  filter : Option TorrentListFilter := none
  category : Option String := none
  tag : Option String := none
  reverse : Option Bool := none
  limit : Option Int := none
  offset : Option Int := none
  hashes : Option (List String) := none
deriving DecidableEq

/-- Query-string encoder (src/common.rs `GetTorrentListParams::to_params`).
Each branch mirrors one `if let Some(..)` of the source; note that the
source gates and fills the `&offset=` segment from `self.limit`
(src/common.rs line 95), not from `self.offset`. -/
def GetTorrentListParams.to_params (p : GetTorrentListParams) : String :=
  let params := ""
  let params := match p.filter with
    | some filter => params ++ "&filter=" ++ filter.to_string
    | none => params
  let params := match p.category with
    | some category => params ++ "&category=" ++ category
    | none => params
  let params := match p.tag with
    | some tag => params ++ "&tag=" ++ tag
    | none => params
  let params := match p.reverse with
    | some reverse => params ++ "&reverse=" ++ boolStr reverse
    | none => params
  let params := match p.limit with
    | some limit => params ++ "&limit=" ++ toString limit
    | none => params
  let params := match p.limit with
    | some offset => params ++ "&offset=" ++ toString offset
    | none => params
  let params := match p.hashes with
    | some hashes => params ++ "&hashes=" ++ String.intercalate "|" hashes
    | none => params
  params

/-- Fluent builder over `GetTorrentListParams`
(src/common.rs `GetTorrentListParamsBuilder`). -/
structure GetTorrentListParamsBuilder where
  param : GetTorrentListParams := {}

/-- src/common.rs `GetTorrentListParamsBuilder::filter`. -/
def GetTorrentListParamsBuilder.filter (b : GetTorrentListParamsBuilder)
    (filter : TorrentListFilter) : GetTorrentListParamsBuilder :=
  { b with param := { b.param with filter := some filter } }

/-- src/common.rs `GetTorrentListParamsBuilder::category`. -/
def GetTorrentListParamsBuilder.category (b : GetTorrentListParamsBuilder)
    (category : String) : GetTorrentListParamsBuilder :=
  { b with param := { b.param with category := some category } }

/-- src/common.rs `GetTorrentListParamsBuilder::tag`. -/
def GetTorrentListParamsBuilder.tag (b : GetTorrentListParamsBuilder)
    (tag : String) : GetTorrentListParamsBuilder :=
  { b with param := { b.param with tag := some tag } }

/-- src/common.rs `GetTorrentListParamsBuilder::reverse`: takes no argument
and always stores `Some(true)`. -/
def GetTorrentListParamsBuilder.reverse (b : GetTorrentListParamsBuilder) :
    GetTorrentListParamsBuilder :=
  { b with param := { b.param with reverse := some true } }

/-- src/common.rs `GetTorrentListParamsBuilder::limit`. -/
def GetTorrentListParamsBuilder.limit (b : GetTorrentListParamsBuilder)
    (limit : Int) : GetTorrentListParamsBuilder :=
  { b with param := { b.param with limit := some limit } }

/-- src/common.rs `GetTorrentListParamsBuilder::offset`. -/
def GetTorrentListParamsBuilder.offset (b : GetTorrentListParamsBuilder)
    (offset : Int) : GetTorrentListParamsBuilder :=
  { b with param := { b.param with offset := some offset } }

/-- src/common.rs `GetTorrentListParamsBuilder::hash`:
`self.param.hashes.as_mut().unwrap_or(&mut vec![]).push(hash.to_string())`.
When `hashes` is `Some`, the push lands in the stored vector; when it is
`None`, `unwrap_or` hands out a freshly allocated temporary vector, the
push lands in that temporary, and the temporary is dropped at the end of
the statement, so the builder is left unchanged. -/
def GetTorrentListParamsBuilder.hash (b : GetTorrentListParamsBuilder)
    (hash : String) : GetTorrentListParamsBuilder :=
  match b.param.hashes with
  | some hs => { b with param := { b.param with hashes := some (hs ++ [hash]) } }
  | none => b

/-- src/common.rs `GetTorrentListParamsBuilder::hashes`. -/
def GetTorrentListParamsBuilder.hashes (b : GetTorrentListParamsBuilder)
    (hashes : List String) : GetTorrentListParamsBuilder :=
  { b with param := { b.param with hashes := some hashes } }

/-- src/common.rs `GetTorrentListParamsBuilder::build`: clones the
accumulated configuration. -/
def GetTorrentListParamsBuilder.build (b : GetTorrentListParamsBuilder) :
    GetTorrentListParams :=
  b.param

/-- One call on a `GetTorrentListParamsBuilder`, used to quantify over all
finite call sequences. -/
inductive ListParamsOp
  | filter (f : TorrentListFilter)
  | category (s : String)
  | tag (s : String)
  | reverse
  | limit (n : Int)
  | offset (n : Int)
  | hash (h : String)
  | hashes (hs : List String)

/-- Apply one builder call. -/
def applyListParamsOp (b : GetTorrentListParamsBuilder) :
    ListParamsOp → GetTorrentListParamsBuilder
  | .filter f => b.filter f
  | .category s => b.category s
  | .tag s => b.tag s
  | .reverse => b.reverse
  | .limit n => b.limit n
  | .offset n => b.offset n
  | .hash h => b.hash h
  | .hashes hs => b.hashes hs

/-! ## src/torrent.rs: response model -/

/-- Opaque stand-in for a Rust `f32` field; the library never computes
with these values, it only decodes and stores them. -/
structure F32 where
  bits : Nat := 0
deriving DecidableEq

/-- Torrent lifecycle states (src/torrent.rs `TorrentState`), one
constructor per serde-renamed variant. -/
inductive TorrentState
  | Error
  | MissingFiles
  | Uploading
  | PausedUP
  | QueuedUP
  | StalledUP
  | CheckingUP
  | ForcedUP
  | Allocating
  | Downloading
  | MetaDownloading
  | PausedDL
  | QueuedDL
  | StalledDL
  | CheckingDL
  | ForcedDL
  | CheckingResumeData
  | Moving
  | Unknown
deriving DecidableEq

/-- The serde rename table of `TorrentState`: wire name and variant, in
declaration order (src/torrent.rs lines 148-225). -/
def TorrentState.wireTable : List (String × TorrentState) :=
  [("error", .Error),
   ("missingFiles", .MissingFiles),
   ("uploading", .Uploading),
   ("pausedUP", .PausedUP),
   ("queuedUP", .QueuedUP),
   ("stalledUP", .StalledUP),
   ("checkingUP", .CheckingUP),
   ("forcedUP", .ForcedUP),
   ("allocating", .Allocating),
   ("downloading", .Downloading),
   ("metaDL", .MetaDownloading),
   ("pausedDL", .PausedDL),
   ("queuedDL", .QueuedDL),
   ("stalledDL", .StalledDL),
   ("checkingDL", .CheckingDL),
   ("forcedDL", .ForcedDL),
   ("checkingResumeData", .CheckingResumeData),
   ("moving", .Moving),
   ("unknown", .Unknown)]

/-- Decoding a `TorrentState` from a JSON string value, as the serde
`Deserialize` derive behaves on the enum of src/torrent.rs: each variant is
recognized by its `#[serde(rename = ..)]` literal, and a string matching no
variant is a deserialization error (`none`); the derive carries no
`#[serde(other)]` fallback. -/
def TorrentState.fromWire (s : String) : Option TorrentState :=
  if s = "error" then some .Error
  else if s = "missingFiles" then some .MissingFiles
  else if s = "uploading" then some .Uploading
  else if s = "pausedUP" then some .PausedUP
  else if s = "queuedUP" then some .QueuedUP
  else if s = "stalledUP" then some .StalledUP
  else if s = "checkingUP" then some .CheckingUP
  else if s = "forcedUP" then some .ForcedUP
  else if s = "allocating" then some .Allocating
  else if s = "downloading" then some .Downloading
  else if s = "metaDL" then some .MetaDownloading
  else if s = "pausedDL" then some .PausedDL
  else if s = "queuedDL" then some .QueuedDL
  else if s = "stalledDL" then some .StalledDL
  else if s = "checkingDL" then some .CheckingDL
  else if s = "forcedDL" then some .ForcedDL
  else if s = "checkingResumeData" then some .CheckingResumeData
  else if s = "moving" then some .Moving
  else if s = "unknown" then some .Unknown
  else none

/-- A snapshot of one torrent as reported by the server
(src/torrent.rs `TorrentInfo`); field defaults mirror the `Default` derive
(`TorrentState::default()` is `Unknown`). -/
structure TorrentInfo where
  added_on : Nat := 0
  amount_left : Nat := 0
  auto_tmm : Bool := false
  availability : F32 := {}
  category : String := ""
  completed : Nat := 0
  completion_on : Nat := 0
  content_path : String := ""
  dl_limit : Int := 0
  dlspeed : Nat := 0
  downloaded : Nat := 0
  downloaded_session : Nat := 0
  eta : Int := 0
  f_l_piece_prio : Bool := false
  force_start : Bool := false
  hash : String := ""
  last_activity : Int := 0
  magnet_uri : String := ""
  max_ratio : F32 := {}
  max_seeding_time : Int := 0
  name : String := ""
  num_complete : Int := 0
  num_incomplete : Int := 0
  num_leechs : Int := 0
  num_seeds : Int := 0
  priority : Int := 0
  progress : F32 := {}
  ratio : F32 := {}
  ratio_limit : F32 := {}
  save_path : String := ""
  seeding_time : Int := 0
  seeding_time_limit : Int := 0
  seen_complete : Int := 0
  seq_dl : Bool := false
  size : Int := 0
  state : TorrentState := .Unknown
  super_seeding : Bool := false
  tags : List String := []
  time_active : Int := 0
  total_size : Int := 0
  tracker : String := ""
  up_limit : Int := 0
  uploaded : Nat := 0
  uploaded_session : Nat := 0
  upspeed : Nat := 0
deriving DecidableEq

/-- Tracker status codes (src/torrent.rs `TrackerStatus`). -/
inductive TrackerStatus
  | Disabled
  | NotContacted
  | Working
  | Updating
  | NotWorking
deriving DecidableEq

/-- One tracker entry (src/torrent.rs `TorrentTracker`). -/
structure TorrentTracker where
  url : String := ""
  status : TrackerStatus := .Disabled
  tier : Int := 0
  num_peers : Int := 0
  num_seeds : Int := 0
  num_leeches : Int := 0
  num_downloaded : Int := 0
  message : String := ""
deriving DecidableEq

/-! ## src/torrent.rs: upload request -/

/-- A request to add torrents (src/torrent.rs `TorrentUpload`); field
defaults mirror the `Default` derive. `torrents` pairs a file name with
its raw bytes (each byte a `Nat`); `ratio_limit` is an `f32` in the
source and is carried here as its rendered decimal string, since the
library only ever calls `to_string()` on it. -/
structure TorrentUpload where
  urls : List String := []
  torrents : List (String × List Nat) := []
  save_path : Option String := none
  cookie : Option String := none
  category : Option String := none
  tags : Option (List String) := none
  skip_hash_check : Option Bool := none
  paused : Option Bool := none
  root_folder : Option Bool := none
  rename : Option String := none
  upload_limit : Option Int := none
  download_limit : Option Int := none
  ratio_limit : Option String := none
  seeding_time_limit : Option Nat := none
  auto_tmm : Option Bool := none
  sequential_download : Option Bool := none
  first_last_piece_prio : Option Bool := none
deriving DecidableEq

/-- One part of a multipart form: either a named text field or a named
file with its own filename, bytes and content type. -/
inductive FormPart
  | text (name value : String)
  | file (name filename : String) (bytes : List Nat) (mime : String)
deriving DecidableEq

/-- The parts contributed by one `if let Some(..) { form = form.text(name, ..) }`
statement of `to_multipart_form`: one text part when the field is set,
nothing when it is unset. -/
def optPart (name : String) : Option String → List FormPart
  | some v => [FormPart.text name v]
  | none => []

/-- The multipart encoder (src/torrent.rs `TorrentUpload::to_multipart_form`).
`none` is the `panic!` taken when both `urls` and `torrents` are empty;
otherwise the parts are appended in source order: the newline-joined
`urls` text field when `urls` is non-empty, one `torrents` file part per
entry with the fixed `application/x-bittorrent` content type, then one
text part per set optional field under its wire name. -/
def TorrentUpload.to_multipart_form (u : TorrentUpload) : Option (List FormPart) :=
  if u.urls = [] ∧ u.torrents = [] then
    none
  else
    some
      ((if u.urls = [] then [] else [FormPart.text "urls" (String.intercalate "\n" u.urls)])
        ++ u.torrents.map (fun t => FormPart.file "torrents" t.1 t.2 "application/x-bittorrent")
        ++ optPart "savepath" u.save_path
        ++ optPart "cookie" u.cookie
        ++ optPart "category" u.category
        ++ optPart "tags" (u.tags.map (String.intercalate ","))
        ++ optPart "skip_checking" (u.skip_hash_check.map boolStr)
        ++ optPart "paused" (u.paused.map boolStr)
        ++ optPart "root_folder" (u.root_folder.map boolStr)
        ++ optPart "rename" u.rename
        ++ optPart "upLimit" (u.upload_limit.map toString)
        ++ optPart "dlLimit" (u.download_limit.map toString)
        ++ optPart "ratioLimit" u.ratio_limit
        ++ optPart "seedingTimeLimit" (u.seeding_time_limit.map toString)
        ++ optPart "autoTMM" (u.auto_tmm.map boolStr)
        ++ optPart "sequentialDownload" (u.sequential_download.map boolStr)
        ++ optPart "firstLastPiecePrio" (u.first_last_piece_prio.map boolStr))

/-- Fluent builder over `TorrentUpload` (src/torrent.rs `TorrentUploadBuilder`). -/
structure TorrentUploadBuilder where
  params : TorrentUpload := {}

/-- src/torrent.rs `TorrentUploadBuilder::url`. -/
def TorrentUploadBuilder.url (b : TorrentUploadBuilder) (url : String) :
    TorrentUploadBuilder :=
  { b with params := { b.params with urls := b.params.urls ++ [url] } }

/-- src/torrent.rs `TorrentUploadBuilder::torrent_data`. -/
def TorrentUploadBuilder.torrent_data (b : TorrentUploadBuilder)
    (filename : String) (data : List Nat) : TorrentUploadBuilder :=
  { b with params := { b.params with torrents := b.params.torrents ++ [(filename, data)] } }

/-- src/torrent.rs `TorrentUploadBuilder::tag`:
`self.params.tags.as_mut().unwrap_or(&mut vec![]).push(tag)`. When `tags`
is `Some`, the push lands in the stored vector; when it is `None`,
`unwrap_or` hands out a freshly allocated temporary vector, the push lands
in that temporary, and the temporary is dropped, leaving the builder
unchanged. -/
def TorrentUploadBuilder.tag (b : TorrentUploadBuilder) (tag : String) :
    TorrentUploadBuilder :=
  match b.params.tags with
  | some ts => { b with params := { b.params with tags := some (ts ++ [tag]) } }
  | none => b

/-- src/torrent.rs `TorrentUploadBuilder::tags`. -/
def TorrentUploadBuilder.tags (b : TorrentUploadBuilder) (tags : List String) :
    TorrentUploadBuilder :=
  { b with params := { b.params with tags := some tags } }

/-- src/torrent.rs `TorrentUploadBuilder::build`: hands out the accumulated
configuration. -/
def TorrentUploadBuilder.build (b : TorrentUploadBuilder) : TorrentUpload :=
  b.params

/-! ## src/error.rs and src/client.rs -/

/-- The error taxonomy (src/error.rs `ClientError`): `Http` carries the
status of the failing response in place of the opaque `reqwest::Error`,
and `Json` carries the serde error message. -/
inductive ClientError
  | Http (status : Nat)
  | Authorization
  | Json (msg : String)
deriving DecidableEq

/-- src/client.rs `ConnectionInfo`. -/
structure ConnectionInfo where
  url : String
  username : String
  password : String
deriving DecidableEq

/-- src/client.rs `QBittorrentClient`, without the embedded `reqwest::Client`
transport handle (an external collaborator carrying no session state). -/
structure QBittorrentClient where
  connection_info : Option ConnectionInfo
  auth_string : Option String
deriving DecidableEq

/-- src/client.rs `QBittorrentClient::new`. -/
def QBittorrentClient.new : QBittorrentClient :=
  { connection_info := none, auth_string := none }

/-- The observable pieces of an HTTP response: final status code, the
`Set-Cookie` header if present, and the body text. -/
structure HttpResponse where
  status : Nat
  set_cookie : Option String
  body : String

/-- Model of `reqwest::Response::error_for_status`, which fails exactly on
client-error (4xx) and server-error (5xx) statuses. -/
def error_for_status (r : HttpResponse) : Except ClientError HttpResponse :=
  if 400 ≤ r.status ∧ r.status ≤ 599 then Except.error (ClientError.Http r.status)
  else Except.ok r

/-- Outcome of one client operation: normal return, a `ClientError`, or a
process-aborting Rust panic. -/
inductive OpResult (α : Type)
  | ok (a : α)
  | err (e : ClientError)
  | panicked
deriving DecidableEq

/-- A request handed to the transport: method, full URL, the `Cookie`
header if set, the url-encoded form fields, and the multipart body if any. -/
structure Request where
  method : String
  url : String
  cookie : Option String
  form : List (String × String)
  multipart : Option (List FormPart)
deriving DecidableEq

/-- src/client.rs `QBittorrentClient::login`, as a function of the response
the login POST observes. `error_for_status` is applied first, so a 4xx/5xx
status propagates as `Http` before the body is inspected. A body equal to
the literal `Ok.` leads to cookie extraction: the `Set-Cookie` header is
split on semicolons and the first segment starting with `SID=` becomes the
stored auth string; a missing header or missing segment hits `.unwrap()`
on `None`, i.e. a panic, with the receiver not yet modified. Any other
body returns `ClientError::Authorization` and leaves the receiver as it
was. On success, both the auth string and the connection info built from
the call arguments are stored. -/
def QBittorrentClient.login (c : QBittorrentClient)
    (url username password : String) (resp : HttpResponse) :
    QBittorrentClient × OpResult Unit :=
  match error_for_status resp with
  | .error e => (c, .err e)
  | .ok resp =>
    if resp.body = "Ok." then
      match resp.set_cookie with
      | none => (c, .panicked)
      | some cookieHeader =>
        match (rustSplit ';' cookieHeader).find? (fun s => rustStartsWith s "SID=") with
        | none => (c, .panicked)
        | some auth_string =>
          ({ auth_string := some auth_string,
             connection_info := some { url := url, username := username, password := password } },
           .ok ())
    else
      (c, .err ClientError.Authorization)

/-- src/client.rs `QBittorrentClient::get_torrent_list`. `from_str` is the
external serde decoding of the body; the first component is the request
performed, `none` when the authentication guard fails before any network
call. -/
def QBittorrentClient.get_torrent_list (c : QBittorrentClient)
    (resp : HttpResponse) (from_str : String → Except String (List TorrentInfo)) :
    Option Request × OpResult (List TorrentInfo) :=
  match c.auth_string, c.connection_info with
  | some auth_string, some conn =>
    (some { method := "POST", url := conn.url ++ "/api/v2/torrents/info",
            cookie := some auth_string, form := [], multipart := none },
     match error_for_status resp with
     | .error e => .err e
     | .ok r =>
       match from_str r.body with
       | .error e => .err (ClientError.Json e)
       | .ok torrents => .ok torrents)
  | _, _ => (none, .err ClientError.Authorization)

/-- src/client.rs `QBittorrentClient::get_torrent_trackers`. -/
def QBittorrentClient.get_torrent_trackers (c : QBittorrentClient)
    (torrent : TorrentInfo) (resp : HttpResponse)
    (from_str : String → Except String (List TorrentTracker)) :
    Option Request × OpResult (List TorrentTracker) :=
  match c.auth_string, c.connection_info with
  | some auth_string, some conn =>
    (some { method := "POST", url := conn.url ++ "/api/v2/torrents/trackers",
            cookie := some auth_string, form := [("hash", torrent.hash)],
            multipart := none },
     match error_for_status resp with
     | .error e => .err e
     | .ok r =>
       match from_str r.body with
       | .error e => .err (ClientError.Json e)
       | .ok trackers => .ok trackers)
  | _, _ => (none, .err ClientError.Authorization)

/-- src/client.rs `QBittorrentClient::add_torrent_tracker`. -/
def QBittorrentClient.add_torrent_tracker (c : QBittorrentClient)
    (torrent : TorrentInfo) (tracker_url : String) (resp : HttpResponse) :
    Option Request × OpResult Unit :=
  match c.auth_string, c.connection_info with
  | some auth_string, some conn =>
    (some { method := "POST", url := conn.url ++ "/api/v2/torrents/addTrackers",
            cookie := some auth_string,
            form := [("hash", torrent.hash), ("urls", tracker_url)],
            multipart := none },
     match error_for_status resp with
     | .error e => .err e
     | .ok _ => .ok ())
  | _, _ => (none, .err ClientError.Authorization)

/-- src/client.rs `QBittorrentClient::replace_torrent_tracker`. -/
def QBittorrentClient.replace_torrent_tracker (c : QBittorrentClient)
    (torrent : TorrentInfo) (old_url new_url : String) (resp : HttpResponse) :
    Option Request × OpResult Unit :=
  match c.auth_string, c.connection_info with
  | some auth_string, some conn =>
    (some { method := "POST", url := conn.url ++ "/api/v2/torrents/editTracker",
            cookie := some auth_string,
            form := [("hash", torrent.hash), ("origUrl", old_url), ("newUrl", new_url)],
            multipart := none },
     match error_for_status resp with
     | .error e => .err e
     | .ok _ => .ok ())
  | _, _ => (none, .err ClientError.Authorization)

/-- src/client.rs `QBittorrentClient::remove_torrent_tracker`. -/
def QBittorrentClient.remove_torrent_tracker (c : QBittorrentClient)
    (torrent : TorrentInfo) (tracker_url : String) (resp : HttpResponse) :
    Option Request × OpResult Unit :=
  match c.auth_string, c.connection_info with
  | some auth_string, some conn =>
    (some { method := "POST", url := conn.url ++ "/api/v2/torrents/removeTrackers",
            cookie := some auth_string,
            form := [("hash", torrent.hash), ("urls", tracker_url)],
            multipart := none },
     match error_for_status resp with
     | .error e => .err e
     | .ok _ => .ok ())
  | _, _ => (none, .err ClientError.Authorization)

/-- src/client.rs `QBittorrentClient::add_torrent`. The multipart body is
built by `TorrentUpload::to_multipart_form` while the request is being
constructed, so its panic (both `urls` and `torrents` empty) aborts before
any network call. -/
def QBittorrentClient.add_torrent (c : QBittorrentClient)
    (upload : TorrentUpload) (resp : HttpResponse) :
    Option Request × OpResult Unit :=
  match c.auth_string, c.connection_info with
  | some auth_string, some conn =>
    match upload.to_multipart_form with
    | none => (none, .panicked)
    | some form =>
      (some { method := "POST", url := conn.url ++ "/api/v2/torrents/add",
              cookie := some auth_string, form := [], multipart := some form },
       match error_for_status resp with
       | .error e => .err e
       | .ok _ => .ok ())
  | _, _ => (none, .err ClientError.Authorization)

/-- src/client.rs `QBittorrentClient::remove_torrent`. -/
def QBittorrentClient.remove_torrent (c : QBittorrentClient)
    (torrent : TorrentInfo) (delete_files : Bool) (resp : HttpResponse) :
    Option Request × OpResult Unit :=
  match c.auth_string, c.connection_info with
  | some auth_string, some conn =>
    (some { method := "POST", url := conn.url ++ "/api/v2/torrents/delete",
            cookie := some auth_string,
            form := [("hashes", torrent.hash), ("deleteFiles", boolStr delete_files)],
            multipart := none },
     match error_for_status resp with
     | .error e => .err e
     | .ok _ => .ok ())
  | _, _ => (none, .err ClientError.Authorization)

/-- src/client.rs `QBittorrentClient::remove_torrents`: the hashes of all
torrents of the batch are joined with the literal `|` separator into the
single `hashes` form field, and the single `delete_files` flag becomes the
single `deleteFiles` field. -/
def QBittorrentClient.remove_torrents (c : QBittorrentClient)
    (torrents : List TorrentInfo) (delete_files : Bool) (resp : HttpResponse) :
    Option Request × OpResult Unit :=
  match c.auth_string, c.connection_info with
  | some auth_string, some conn =>
    (some { method := "POST", url := conn.url ++ "/api/v2/torrents/delete",
            cookie := some auth_string,
            form := [("hashes", String.intercalate "|" (torrents.map (fun t => t.hash))),
                     ("deleteFiles", boolStr delete_files)],
            multipart := none },
     match error_for_status resp with
     | .error e => .err e
     | .ok _ => .ok ())
  | _, _ => (none, .err ClientError.Authorization)

/-- src/client.rs `QBittorrentClient::get_tags`. -/
def QBittorrentClient.get_tags (c : QBittorrentClient)
    (resp : HttpResponse) (from_str : String → Except String (List String)) :
    Option Request × OpResult (List String) :=
  match c.auth_string, c.connection_info with
  | some auth_string, some conn =>
    (some { method := "GET", url := conn.url ++ "/api/v2/torrents/tags",
            cookie := some auth_string, form := [], multipart := none },
     match error_for_status resp with
     | .error e => .err e
     | .ok r =>
       match from_str r.body with
       | .error e => .err (ClientError.Json e)
       | .ok tags => .ok tags)
  | _, _ => (none, .err ClientError.Authorization)

/-- src/client.rs `QBittorrentClient::create_tag`. -/
def QBittorrentClient.create_tag (c : QBittorrentClient)
    (tag : String) (resp : HttpResponse) :
    Option Request × OpResult Unit :=
  match c.auth_string, c.connection_info with
  | some auth_string, some conn =>
    (some { method := "POST", url := conn.url ++ "/api/v2/torrents/createTags",
            cookie := some auth_string, form := [("tags", tag)], multipart := none },
     match error_for_status resp with
     | .error e => .err e
     | .ok _ => .ok ())
  | _, _ => (none, .err ClientError.Authorization)

/-- src/client.rs `QBittorrentClient::delete_tag`. -/
def QBittorrentClient.delete_tag (c : QBittorrentClient)
    (tag : String) (resp : HttpResponse) :
    Option Request × OpResult Unit :=
  match c.auth_string, c.connection_info with
  | some auth_string, some conn =>
    (some { method := "POST", url := conn.url ++ "/api/v2/torrents/deleteTags",
            cookie := some auth_string, form := [("tags", tag)], multipart := none },
     match error_for_status resp with
     | .error e => .err e
     | .ok _ => .ok ())
  | _, _ => (none, .err ClientError.Authorization)

/-- Recognizer for a text part with the given field name. -/
def isTextNamed (n : String) : FormPart → Bool
  | .text m _ => m = n
  | .file .. => false

/-- Recognizer for a file part. -/
def isFilePart : FormPart → Bool
  | .text .. => false
  | .file .. => true

/-! ## Helper lemmas -/

/-- The reverse field of a builder is only ever `none` or `some true`,
and every builder call preserves this. -/
theorem foldl_applyListParamsOp_reverse
    (ops : List ListParamsOp) :
    ∀ b : GetTorrentListParamsBuilder,
      (b.param.reverse = none ∨ b.param.reverse = some true) →
      ((ops.foldl applyListParamsOp b).param.reverse = none ∨
        (ops.foldl applyListParamsOp b).param.reverse = some true) := by
  induction ops with
  | nil => intro b hb; simpa using hb
  | cons op rest ih =>
    intro b hb
    rw [List.foldl_cons]
    apply ih
    cases op with
    | filter f => simpa [applyListParamsOp, GetTorrentListParamsBuilder.filter] using hb
    | category s => simpa [applyListParamsOp, GetTorrentListParamsBuilder.category] using hb
    | tag s => simpa [applyListParamsOp, GetTorrentListParamsBuilder.tag] using hb
    | reverse => right; simp [applyListParamsOp, GetTorrentListParamsBuilder.reverse]
    | limit n => simpa [applyListParamsOp, GetTorrentListParamsBuilder.limit] using hb
    | offset n => simpa [applyListParamsOp, GetTorrentListParamsBuilder.offset] using hb
    | hash h =>
      cases hh : b.param.hashes with
      | none => simpa [applyListParamsOp, GetTorrentListParamsBuilder.hash, hh] using hb
      | some hs => simpa [applyListParamsOp, GetTorrentListParamsBuilder.hash, hh] using hb
    | hashes hs => simpa [applyListParamsOp, GetTorrentListParamsBuilder.hashes] using hb

/-! ## Claim theorems -/

/-- C1: the claim requires the `&offset=` segment to track the `offset`
field, but `to_params` gates it on `limit` and renders the limit value
(src/common.rs line 95): with only `offset` set the query is empty, and
with only `limit` set the query carries an `&offset=` segment holding the
limit value. -/
theorem to_params_offset_gated_on_limit :
    GetTorrentListParams.to_params { offset := some 5 } = "" ∧
    GetTorrentListParams.to_params { limit := some 3 } = "&limit=3&offset=3" ∧
    GetTorrentListParams.to_params { offset := some 5 } ≠ "&offset=5" := by
  refine ⟨rfl, rfl, ?_⟩
  decide

/-- C2: three single-item append calls on a fresh builder leave the
underlying optional list `none` — each push lands in the freshly allocated
temporary produced by `unwrap_or` and is discarded — so the appended items
do not accumulate, for `TorrentUploadBuilder::tag` and
`GetTorrentListParamsBuilder::hash` alike. -/
theorem append_setters_discard_items :
    ((({} : TorrentUploadBuilder).tag "a" |>.tag "b" |>.tag "c").build.tags = none) ∧
    ((({} : GetTorrentListParamsBuilder).hash "a" |>.hash "b" |>.hash "c").build.hashes
      = none) :=
  ⟨rfl, rfl⟩

/-- C3 counterexample: the wire string `bogus` is not one of the nineteen
documented names, yet decoding it does not yield `Unknown`; it fails
(`none`), refuting the claim that every unrecognized wire value decodes to
`Unknown`. -/
theorem torrentState_unrecognized_decode_counterexample :
    ("bogus" ∉ TorrentState.wireTable.map Prod.fst) ∧
    TorrentState.fromWire "bogus" ≠ some TorrentState.Unknown ∧
    TorrentState.fromWire "bogus" = none := by
  refine ⟨by decide, by decide, rfl⟩

/-- C3 amended: decoding succeeds exactly on the nineteen documented wire
names, yielding the corresponding variant; every other wire string is a
decode error (`none`), never `Unknown`. -/
theorem torrentState_fromWire_amended :
    (∀ p ∈ TorrentState.wireTable, TorrentState.fromWire p.1 = some p.2) ∧
    (∀ s : String, s ∉ TorrentState.wireTable.map Prod.fst →
      TorrentState.fromWire s = none) := by
  constructor
  · decide
  · intro s hs
    have hne : ∀ x, x ∈ TorrentState.wireTable.map Prod.fst → s ≠ x := by
      intro x hx h
      exact hs (h ▸ hx)
    unfold TorrentState.fromWire
    rw [if_neg (hne "error" (by decide)),
      if_neg (hne "missingFiles" (by decide)),
      if_neg (hne "uploading" (by decide)),
      if_neg (hne "pausedUP" (by decide)),
      if_neg (hne "queuedUP" (by decide)),
      if_neg (hne "stalledUP" (by decide)),
      if_neg (hne "checkingUP" (by decide)),
      if_neg (hne "forcedUP" (by decide)),
      if_neg (hne "allocating" (by decide)),
      if_neg (hne "downloading" (by decide)),
      if_neg (hne "metaDL" (by decide)),
      if_neg (hne "pausedDL" (by decide)),
      if_neg (hne "queuedDL" (by decide)),
      if_neg (hne "stalledDL" (by decide)),
      if_neg (hne "checkingDL" (by decide)),
      if_neg (hne "forcedDL" (by decide)),
      if_neg (hne "checkingResumeData" (by decide)),
      if_neg (hne "moving" (by decide)),
      if_neg (hne "unknown" (by decide))]

/-- C3 amended witness at the wire name `error` and the unrecognized
string `bogus`. -/
theorem torrentState_fromWire_amended_witness :
    TorrentState.fromWire "error" = some TorrentState.Error ∧
    TorrentState.fromWire "bogus" = none :=
  ⟨torrentState_fromWire_amended.1 ("error", TorrentState.Error) (by decide),
   torrentState_fromWire_amended.2 "bogus" (by decide)⟩

/-- C4 counterexample: on a 403 response with body `Fails.`, `login`
returns the transport error `Http 403` — produced by `error_for_status`
before the body is inspected — not `Authorization`, refuting the claim for
error HTTP statuses (the session is still left unchanged). -/
theorem login_error_status_counterexample :
    QBittorrentClient.new.login "u" "a" "b"
        { status := 403, set_cookie := none, body := "Fails." } =
      (QBittorrentClient.new, OpResult.err (ClientError.Http 403)) ∧
    OpResult.err (ClientError.Http 403) ≠
      (OpResult.err ClientError.Authorization : OpResult Unit) := by
  refine ⟨by decide, by decide⟩

/-- C4 amended: when the response status is not a 4xx/5xx error, a body
other than the literal `Ok.` makes `login` return `Authorization` with the
session exactly as before; on a 4xx/5xx status `login` returns the
transport error `Http status`, likewise leaving the session unchanged. -/
theorem login_non_ok_body_amended (c : QBittorrentClient)
    (url username password : String) (resp : HttpResponse)
    (hbody : resp.body ≠ "Ok.") :
    (¬(400 ≤ resp.status ∧ resp.status ≤ 599) →
      c.login url username password resp = (c, OpResult.err ClientError.Authorization)) ∧
    ((400 ≤ resp.status ∧ resp.status ≤ 599) →
      c.login url username password resp = (c, OpResult.err (ClientError.Http resp.status))) := by
  constructor <;> intro h <;>
    simp [QBittorrentClient.login, error_for_status, h, hbody]

/-- C4 amended witness: a 200 response with body `Fails.` yields
`Authorization` and leaves a fresh session untouched. -/
theorem login_non_ok_body_amended_witness :
    QBittorrentClient.new.login "http://h" "user" "pass"
        { status := 200, set_cookie := none, body := "Fails." } =
      (QBittorrentClient.new, OpResult.err ClientError.Authorization) :=
  (login_non_ok_body_amended QBittorrentClient.new "http://h" "user" "pass"
      { status := 200, set_cookie := none, body := "Fails." } (by decide)).1 (by decide)

/-- C5: the multipart encoder fails (the panic, modelled as `none`, taken
before any request is built) exactly when both the url list and the
torrent list are empty, and produces a form in every other configuration. -/
theorem to_multipart_form_fails_iff_both_empty :
    ∀ u : TorrentUpload,
      (u.to_multipart_form = none ↔ (u.urls = [] ∧ u.torrents = [])) ∧
      ((u.to_multipart_form).isSome ↔ (u.urls ≠ [] ∨ u.torrents ≠ [])) := by
  intro u
  unfold TorrentUpload.to_multipart_form
  constructor
  · split <;> simp_all
  · split
    · simp_all [not_and_or]
    · simp_all [not_and_or]
      tauto

/-- C7: with a non-error status, body exactly `Ok.`, and a `Set-Cookie`
header present, `login` stores the first semicolon-delimited segment
starting with `SID=` as the auth string and stores the connection info
built from exactly the supplied url, username and password, returning
success; when no such segment exists the `.unwrap()` on the search result
is a fatal panic — never a silent no-op — with the session unchanged. -/
theorem login_ok_stores_sid_and_conn (c : QBittorrentClient)
    (url username password : String) (resp : HttpResponse) (ck : String)
    (hstatus : ¬(400 ≤ resp.status ∧ resp.status ≤ 599))
    (hbody : resp.body = "Ok.")
    (hck : resp.set_cookie = some ck) :
    (∀ seg, (rustSplit ';' ck).find? (fun s => rustStartsWith s "SID=") = some seg →
      c.login url username password resp =
        ({ auth_string := some seg,
           connection_info := some { url := url, username := username, password := password } },
         OpResult.ok ())) ∧
    ((rustSplit ';' ck).find? (fun s => rustStartsWith s "SID=") = none →
      c.login url username password resp = (c, OpResult.panicked)) := by
  constructor
  · intro seg hseg
    simp [QBittorrentClient.login, error_for_status, hstatus, hbody, hck, hseg]
  · intro hnone
    simp [QBittorrentClient.login, error_for_status, hstatus, hbody, hck, hnone]

/-- C7 witness: a 200 `Ok.` response with `Set-Cookie` value
`SID=abc123;Path=/` logs in, storing the token `SID=abc123` and the
supplied connection info. -/
theorem login_ok_stores_sid_and_conn_witness :
    QBittorrentClient.new.login "http://h" "user" "pass"
        { status := 200, set_cookie := some "SID=abc123;Path=/", body := "Ok." } =
      ({ auth_string := some "SID=abc123",
         connection_info := some { url := "http://h", username := "user", password := "pass" } },
       OpResult.ok ()) :=
  (login_ok_stores_sid_and_conn QBittorrentClient.new "http://h" "user" "pass"
      { status := 200, set_cookie := some "SID=abc123;Path=/", body := "Ok." }
      "SID=abc123;Path=/" (by decide) rfl rfl).1 "SID=abc123" (by decide)

/-- C9: for an authenticated session, `remove_torrents` sends one POST to
the delete endpoint whose `hashes` form field is the torrents' hashes
joined by the literal `|` separator in list order, and whose single
`deleteFiles` field renders the one batch-wide flag. -/
theorem remove_torrents_pipe_joins_hashes (c : QBittorrentClient)
    (a : String) (conn : ConnectionInfo) (torrents : List TorrentInfo)
    (delete_files : Bool) (resp : HttpResponse)
    (hA : c.auth_string = some a) (hC : c.connection_info = some conn) :
    (c.remove_torrents torrents delete_files resp).1 =
      some { method := "POST", url := conn.url ++ "/api/v2/torrents/delete",
             cookie := some a,
             form := [("hashes", String.intercalate "|" (torrents.map (fun t => t.hash))),
                      ("deleteFiles", boolStr delete_files)],
             multipart := none } := by
  simp [QBittorrentClient.remove_torrents, hA, hC]

/-- C9 witness: hashes `a`, `b`, `c` with `delete_files = true` encode the
`hashes` field as the literal `a|b|c`. -/
theorem remove_torrents_pipe_joins_hashes_witness :
    (({ auth_string := some "SID=s",
        connection_info := some { url := "http://h", username := "u", password := "p" } }
        : QBittorrentClient).remove_torrents
      [{ hash := "a" }, { hash := "b" }, { hash := "c" }] true
      { status := 200, set_cookie := none, body := "" }).1 =
      some { method := "POST", url := "http://h/api/v2/torrents/delete",
             cookie := some "SID=s",
             form := [("hashes", "a|b|c"), ("deleteFiles", "true")],
             multipart := none } :=
  (remove_torrents_pipe_joins_hashes _ "SID=s"
      { url := "http://h", username := "u", password := "p" }
      [{ hash := "a" }, { hash := "b" }, { hash := "c" }] true
      { status := 200, set_cookie := none, body := "" } rfl rfl).trans (by decide)

/-- C10: over every finite sequence of builder calls starting from the
default builder, the built configuration's reverse field is `none` or
`some true` — `reverse()` takes no argument and always stores `some true`,
and no other call writes the field — so an explicit `reverse=false` is
inexpressible. -/
theorem builder_reverse_never_false (ops : List ListParamsOp) :
    ((ops.foldl applyListParamsOp {}).build).reverse = none ∨
    ((ops.foldl applyListParamsOp {}).build).reverse = some true :=
  foldl_applyListParamsOp_reverse ops {} (Or.inl rfl)

/-- C8: whenever the session lacks its auth string or its connection info
(or both), every authenticated operation returns `Authorization`
immediately with no request handed to the transport; the operations
borrow the session immutably, so the session state is unchanged by
construction. -/
theorem unauthenticated_ops_return_authorization (c : QBittorrentClient)
    (h : c.auth_string = none ∨ c.connection_info = none) :
    (∀ resp d, c.get_torrent_list resp d = (none, .err ClientError.Authorization)) ∧
    (∀ t resp d, c.get_torrent_trackers t resp d = (none, .err ClientError.Authorization)) ∧
    (∀ t u resp, c.add_torrent_tracker t u resp = (none, .err ClientError.Authorization)) ∧
    (∀ t u v resp, c.replace_torrent_tracker t u v resp = (none, .err ClientError.Authorization)) ∧
    (∀ t u resp, c.remove_torrent_tracker t u resp = (none, .err ClientError.Authorization)) ∧
    (∀ up resp, c.add_torrent up resp = (none, .err ClientError.Authorization)) ∧
    (∀ t df resp, c.remove_torrent t df resp = (none, .err ClientError.Authorization)) ∧
    (∀ ts df resp, c.remove_torrents ts df resp = (none, .err ClientError.Authorization)) ∧
    (∀ resp d, c.get_tags resp d = (none, .err ClientError.Authorization)) ∧
    (∀ tg resp, c.create_tag tg resp = (none, .err ClientError.Authorization)) ∧
    (∀ tg resp, c.delete_tag tg resp = (none, .err ClientError.Authorization)) := by
  refine ⟨?_, ?_, ?_, ?_, ?_, ?_, ?_, ?_, ?_, ?_, ?_⟩ <;> intros <;>
    rcases hA : c.auth_string with _ | a <;> rcases hC : c.connection_info with _ | ci <;>
      simp_all [QBittorrentClient.get_torrent_list, QBittorrentClient.get_torrent_trackers,
        QBittorrentClient.add_torrent_tracker, QBittorrentClient.replace_torrent_tracker,
        QBittorrentClient.remove_torrent_tracker, QBittorrentClient.add_torrent,
        QBittorrentClient.remove_torrent, QBittorrentClient.remove_torrents,
        QBittorrentClient.get_tags, QBittorrentClient.create_tag, QBittorrentClient.delete_tag]

/-- C8 witness: a fresh, never-logged-in client refuses `get_torrent_list`
and `create_tag` with `Authorization` and performs no request. -/
theorem unauthenticated_ops_return_authorization_witness :
    QBittorrentClient.new.get_torrent_list
        { status := 200, set_cookie := none, body := "[]" }
        (fun _ => Except.ok []) = (none, .err ClientError.Authorization) ∧
    QBittorrentClient.new.create_tag "t"
        { status := 200, set_cookie := none, body := "" }
      = (none, .err ClientError.Authorization) :=
  ⟨(unauthenticated_ops_return_authorization QBittorrentClient.new (Or.inl rfl)).1
      { status := 200, set_cookie := none, body := "[]" } (fun _ => Except.ok []),
   (unauthenticated_ops_return_authorization QBittorrentClient.new (Or.inl rfl)).2.2.2.2.2.2.2.2.2.1
      "t" { status := 200, set_cookie := none, body := "" }⟩

/-- Filtering the parts of one optional text field by name keeps the
segment exactly when the names agree. -/
theorem filter_isTextNamed_optPart (n m : String) (v : Option String) :
    (optPart m v).filter (isTextNamed n) = if m = n then optPart m v else [] := by
  cases v <;> by_cases h : m = n <;> simp [optPart, isTextNamed, h]

/-- An optional text field never contributes a file part. -/
theorem filter_isFilePart_optPart (m : String) (v : Option String) :
    (optPart m v).filter isFilePart = [] := by
  cases v <;> simp [optPart, isFilePart]

/-- The torrent file parts contribute no text part of any name. -/
theorem filter_isTextNamed_fileParts (n : String) (ts : List (String × List Nat)) :
    (ts.map (fun t => FormPart.file "torrents" t.1 t.2 "application/x-bittorrent")).filter
      (isTextNamed n) = [] := by
  induction ts with
  | nil => rfl
  | cons t ts ih => simp [isTextNamed, ih]

/-- Every torrent file part is a file part. -/
theorem filter_isFilePart_fileParts (ts : List (String × List Nat)) :
    (ts.map (fun t => FormPart.file "torrents" t.1 t.2 "application/x-bittorrent")).filter
      isFilePart
      = ts.map (fun t => FormPart.file "torrents" t.1 t.2 "application/x-bittorrent") := by
  induction ts with
  | nil => rfl
  | cons t ts ih => simp [isFilePart, ih]

/-- Filtering the url segment by text name keeps it exactly for the name
`urls`. -/
theorem filter_isTextNamed_urlsSeg (n : String) (l : List String) :
    ((if l = [] then ([] : List FormPart)
      else [FormPart.text "urls" (String.intercalate "\n" l)]).filter (isTextNamed n))
      = if "urls" = n then
          (if l = [] then [] else [FormPart.text "urls" (String.intercalate "\n" l)])
        else [] := by
  by_cases h : "urls" = n <;> split <;> simp [isTextNamed, h]

/-- The url segment contributes no file part. -/
theorem filter_isFilePart_urlsSeg (l : List String) :
    ((if l = [] then ([] : List FormPart)
      else [FormPart.text "urls" (String.intercalate "\n" l)]).filter isFilePart) = [] := by
  split <;> simp [isFilePart]

set_option linter.unusedTactic false in
/-- C6: in every form the encoder produces, the urls render as one
newline-joined `urls` text part present exactly when the url list is
non-empty; the file parts are exactly one `torrents` part per entry, in
order, each with its own filename and the fixed `application/x-bittorrent`
content type; and each optional field contributes exactly one text part
under its externally mandated name when set — `savepath`, `cookie`,
`category`, comma-joined `tags`, `skip_checking`, `paused`, `root_folder`,
`rename`, `upLimit`, `dlLimit`, `ratioLimit`, `seedingTimeLimit`,
`autoTMM`, `sequentialDownload`, `firstLastPiecePrio` — with boolean and
numeric values rendered as strings, and no part when unset. -/
theorem to_multipart_form_field_mapping (u : TorrentUpload) (f : List FormPart)
    (h : u.to_multipart_form = some f) :
    f.filter (isTextNamed "urls")
      = (if u.urls = [] then [] else [FormPart.text "urls" (String.intercalate "\n" u.urls)]) ∧
    f.filter isFilePart
      = u.torrents.map (fun t => FormPart.file "torrents" t.1 t.2 "application/x-bittorrent") ∧
    f.filter (isTextNamed "savepath")
      = (match u.save_path with
         | some s => [FormPart.text "savepath" s] | none => []) ∧
    f.filter (isTextNamed "cookie")
      = (match u.cookie with
         | some s => [FormPart.text "cookie" s] | none => []) ∧
    f.filter (isTextNamed "category")
      = (match u.category with
         | some s => [FormPart.text "category" s] | none => []) ∧
    f.filter (isTextNamed "tags")
      = (match u.tags with
         | some ts => [FormPart.text "tags" (String.intercalate "," ts)] | none => []) ∧
    f.filter (isTextNamed "skip_checking")
      = (match u.skip_hash_check with
         | some b => [FormPart.text "skip_checking" (boolStr b)] | none => []) ∧
    f.filter (isTextNamed "paused")
      = (match u.paused with
         | some b => [FormPart.text "paused" (boolStr b)] | none => []) ∧
    f.filter (isTextNamed "root_folder")
      = (match u.root_folder with
         | some b => [FormPart.text "root_folder" (boolStr b)] | none => []) ∧
    f.filter (isTextNamed "rename")
      = (match u.rename with
         | some s => [FormPart.text "rename" s] | none => []) ∧
    f.filter (isTextNamed "upLimit")
      = (match u.upload_limit with
         | some k => [FormPart.text "upLimit" (toString k)] | none => []) ∧
    f.filter (isTextNamed "dlLimit")
      = (match u.download_limit with
         | some k => [FormPart.text "dlLimit" (toString k)] | none => []) ∧
    f.filter (isTextNamed "ratioLimit")
      = (match u.ratio_limit with
         | some s => [FormPart.text "ratioLimit" s] | none => []) ∧
    f.filter (isTextNamed "seedingTimeLimit")
      = (match u.seeding_time_limit with
         | some k => [FormPart.text "seedingTimeLimit" (toString k)] | none => []) ∧
    f.filter (isTextNamed "autoTMM")
      = (match u.auto_tmm with
         | some b => [FormPart.text "autoTMM" (boolStr b)] | none => []) ∧
    f.filter (isTextNamed "sequentialDownload")
      = (match u.sequential_download with
         | some b => [FormPart.text "sequentialDownload" (boolStr b)] | none => []) ∧
    f.filter (isTextNamed "firstLastPiecePrio")
      = (match u.first_last_piece_prio with
         | some b => [FormPart.text "firstLastPiecePrio" (boolStr b)] | none => []) := by
  have hne : ¬(u.urls = [] ∧ u.torrents = []) := by
    intro hc
    rw [TorrentUpload.to_multipart_form, if_pos hc] at h
    cases h
  rw [TorrentUpload.to_multipart_form, if_neg hne] at h
  have hf := (Option.some.inj h).symm
  subst hf
  refine ⟨?_, ?_, ?_, ?_, ?_, ?_, ?_, ?_, ?_, ?_, ?_, ?_, ?_, ?_, ?_, ?_, ?_⟩ <;>
    simp only [List.filter_append, filter_isTextNamed_urlsSeg, filter_isTextNamed_fileParts,
      filter_isTextNamed_optPart, filter_isFilePart_urlsSeg, filter_isFilePart_fileParts,
      filter_isFilePart_optPart, List.append_nil, List.nil_append] <;>
    simp
  all_goals first
    | rfl
    | (cases u.save_path <;> rfl)
    | (cases u.cookie <;> rfl)
    | (cases u.category <;> rfl)
    | (cases u.tags <;> rfl)
    | (cases u.skip_hash_check <;> rfl)
    | (cases u.paused <;> rfl)
    | (cases u.root_folder <;> rfl)
    | (cases u.rename <;> rfl)
    | (cases u.upload_limit <;> rfl)
    | (cases u.download_limit <;> rfl)
    | (cases u.ratio_limit <;> rfl)
    | (cases u.seeding_time_limit <;> rfl)
    | (cases u.auto_tmm <;> rfl)
    | (cases u.sequential_download <;> rfl)
    | (cases u.first_last_piece_prio <;> rfl)

/-- C6 witness: the upload with one url and upload_limit 500 produces the
form whose single `upLimit` text part carries the value `500`. -/
theorem to_multipart_form_field_mapping_witness :
    ([FormPart.text "urls" "http://x", FormPart.text "upLimit" "500"].filter
      (isTextNamed "upLimit")) = [FormPart.text "upLimit" "500"] :=
  ((to_multipart_form_field_mapping
      { urls := ["http://x"], upload_limit := some 500 }
      [FormPart.text "urls" "http://x", FormPart.text "upLimit" "500"]
      (by decide)).2.2.2.2.2.2.2.2.2.2.1).trans (by decide)
